import Mathlib

/-!
Verification of the pdf-reader-ai repository: a shallow embedding of the
explanation API route (`/api/explain`, `POST`), the session shell
(`page.tsx`), the PDF viewer's selection and zoom handlers
(`PDFViewer.tsx`), and the explanation popover's fetch state machine
(`ExplanationPopover.tsx`), together with theorems about them.

JavaScript strings are modelled as Lean `String` (lengths are character
counts), JSON field values reaching the handler as `JsValue`, and the
upstream completion API as an explicit function argument so that each
request the boundary makes is recorded in a trace. The zoom scale, a
JavaScript number whose uses here are additions of 0.2 and clamping
against the literals 0.5 and 3, is modelled as a rational; clamping
assigns the literal bound, so the exact stabilization values carry over.
-/

namespace PdfReader

/-- A JavaScript value as it can appear in the parsed request body's `text`
field: a string, number, boolean, `null`, `undefined` (the value of a missing
field after destructuring), or any object/array value. -/
inductive JsValue where
  | vStr (s : String)
  | vNum (n : Int)
  | vBool (b : Bool)
  | vNull
  | vUndefined
  | vObj
deriving DecidableEq

/-- JavaScript truthiness (the handler's guard is `!text || ...`):
empty string, zero, `false`, `null` and `undefined` are falsy. -/
def jsTruthy : JsValue → Bool
  | .vStr s => s != ""
  | .vNum n => n != 0
  | .vBool b => b
  | .vNull => false
  | .vUndefined => false
  | .vObj => true

/-- The check `typeof text === "string"`. -/
def jsIsString : JsValue → Bool
  | .vStr _ => true
  | _ => false

/-- The string content of a value the handler has already checked to be a
string (defaulting elsewhere, never reached past the guard). -/
def jsAsString : JsValue → String
  | .vStr s => s
  | _ => ""

/-- The MODELS table of the route: tier name to upstream model id. -/
def MODELS : List (String × String) :=
  [("fast", "gpt-4o-mini"), ("balanced", "gpt-4o"), ("thinking", "o1-mini")]

/-- The fixed instruction (`systemPrompt` in the route). -/
def systemPrompt : String :=
  "You are a helpful reading assistant. When given a piece of text from a research paper, book, or document, provide a brief, clear explanation that helps the reader understand it quickly.\n\nGuidelines:\n- Be concise (2-4 sentences max)\n- Use simple, accessible language\n- If it's a technical term, define it simply\n- If it's a complex concept, break it down\n- If it's a claim or finding, clarify what it means\n- Don't add unnecessary context or tangents\n- Focus on what would help someone continue reading with better understanding"

/-- The user-role passage framing the route builds around the selected text. -/
def userPrompt (text : String) : String :=
  "Explain this in simple terms:\n\n\"" ++ text ++ "\""

/-- One chat message of an upstream request. -/
structure ChatMessage where
  role : String
  content : String
deriving DecidableEq

/-- The upstream completion request the route constructs: model id, message
list, and the optional parameters that differ per tier (`max_tokens`,
`max_completion_tokens`, `temperature`; the route never sets both length
parameters at once). Temperature is modelled as a rational. -/
structure UpstreamCall where
  model : String
  messages : List ChatMessage
  max_tokens : Option Nat
  max_completion_tokens : Option Nat
  temperature : Option ℚ
deriving DecidableEq

/-- The call `openai.chat.completions.create(...)` as the route builds it:
the per-tier request-construction branch on `isThinkingModel`. -/
def buildUpstreamCall (model : String) (text : String) : UpstreamCall :=
  let selectedModel := (MODELS.lookup model).getD "gpt-4o-mini"
  if model = "thinking" then
    { model := selectedModel
      messages := [⟨"user", systemPrompt ++ "\n\n" ++ userPrompt text⟩]
      max_tokens := none
      max_completion_tokens := some 300
      temperature := none }
  else
    { model := selectedModel
      messages := [⟨"system", systemPrompt⟩, ⟨"user", userPrompt text⟩]
      max_tokens := some 200
      max_completion_tokens := none
      temperature := some (3/10) }

/-- What the upstream call resolves to: a completion whose
`choices[0]?.message?.content` is the given optional string, or a thrown
error carrying an optional `status` and `message`. -/
inductive UpstreamResult where
  | success (content : Option String)
  | failure (status : Option Nat) (message : Option String)

/-- The JSON body of the route's response. -/
inductive RespBody where
  | ok (explanation : String)
  | err (msg : String)
deriving DecidableEq

/-- An HTTP response of the route: status code and JSON body. -/
structure Response where
  status : Nat
  body : RespBody
deriving DecidableEq

/-- The parsed request body: the `text` field's value and the `model` field
(`none` when absent, so that destructuring defaults it to "fast"). -/
structure ReqBody where
  text : JsValue
  model : Option String
deriving DecidableEq

/-- JavaScript `a || b` where `a` is an optional string: `b` when `a` is
absent or empty (empty strings are falsy). -/
def strOrElse (a : Option String) (b : String) : String :=
  match a with
  | some s => if s = "" then b else s
  | none => b

/-- The POST handler of `/api/explain`. `apiKey` is
`process.env.OPENAI_API_KEY` (`none` when unset), `body` the parsed JSON
body, `upstream` the behavior of the completion API. Returns the HTTP
response together with the list of upstream calls made (empty or one). -/
def POST (apiKey : Option String) (body : ReqBody)
    (upstream : UpstreamCall → UpstreamResult) : Response × List UpstreamCall :=
  match apiKey with
  | none => (⟨500, .err "API key not configured"⟩, [])
  | some _ =>
    if (!jsTruthy body.text) || (!jsIsString body.text) then
      (⟨400, .err "Text is required"⟩, [])
    else
      let text := jsAsString body.text
      if text.length > 2000 then
        (⟨400, .err "Text too long. Please select a shorter passage."⟩, [])
      else
        let model := body.model.getD "fast"
        let call := buildUpstreamCall model text
        match upstream call with
        | .success content =>
          (⟨200, .ok (strOrElse content "Unable to generate explanation.")⟩, [call])
        | .failure st msg =>
          if st = some 401 then
            (⟨401, .err "Invalid API key"⟩, [call])
          else if st = some 429 then
            (⟨429, .err "Rate limit exceeded. Please try again."⟩, [call])
          else
            (⟨500, .err (strOrElse msg "Failed to generate explanation")⟩, [call])

/-- The claim's description of an invalid `text` field: missing, non-string,
empty, or longer than 2000 characters. -/
def invalidText : JsValue → Prop
  | .vStr s => s = "" ∨ s.length > 2000
  | _ => True

/-- The anchor geometry a selection stores (`position` in `page.tsx`):
the bounding rectangle's right edge, top and bottom, in viewport
coordinates. -/
structure Anchor where
  right : Int
  top : Int
  bottom : Int
deriving DecidableEq

/-- A selection of `page.tsx`: the selected text and its anchor. -/
structure Selection where
  text : String
  position : Anchor
deriving DecidableEq

/-- The session shell's state (the `useState` hooks of `page.tsx`), together
with whether the platform text selection currently has ranges
(`window.getSelection()`; browser state the handlers read and clear). -/
structure SessionState where
  pdfUrl : Option String
  urlInput : String
  selection : Option Selection
  model : String
  platformSelection : Bool
deriving DecidableEq

/-- Side effects the session handlers perform besides updating state. -/
inductive Effect where
  | alert (msg : String)
  | createObjectURL
  | revokeObjectURL (url : String)
deriving DecidableEq

/-- The handler `handleFileUpload` of `page.tsx`: rejects non-PDF MIME types
with an alert before touching any state; otherwise revokes a previous blob
URL, creates an object URL (`freshUrl`) for the file and adopts it, clearing
the selection and the URL input. The file is represented by its MIME type. -/
def handleFileUpload (st : SessionState) (fileType : String) (freshUrl : String) :
    SessionState × List Effect :=
  if fileType ≠ "application/pdf" then
    (st, [.alert "Please upload a PDF file"])
  else
    let revokes : List Effect :=
      match st.pdfUrl with
      | some u => if u.startsWith "blob:" then [.revokeObjectURL u] else []
      | none => []
    ({ st with pdfUrl := some freshUrl, selection := none, urlInput := "" },
      revokes ++ [.createObjectURL])

/-- The handler `handleClosePopover` of `page.tsx`: clears the selection and
removes all ranges from the platform text selection. -/
def handleClosePopover (st : SessionState) : SessionState :=
  { st with selection := none, platformSelection := false }

/-- The handler `handleBack` of `page.tsx` (navigating back unloads the
document): revokes a blob URL, clears the document reference, the selection
and the URL input. It does not touch the platform text selection. -/
def handleBack (st : SessionState) : SessionState × List Effect :=
  let revokes : List Effect :=
    match st.pdfUrl with
    | some u => if u.startsWith "blob:" then [.revokeObjectURL u] else []
    | none => []
  ({ st with pdfUrl := none, selection := none, urlInput := "" }, revokes)

/-- The popover's `handleEscape` listener: mounted only while the popover is
(i.e. while a selection exists), it calls `onClose` (`handleClosePopover`)
on an Escape key press. -/
def dispatchEscape (st : SessionState) : SessionState :=
  if st.selection.isSome then handleClosePopover st else st

/-- The popover's `handleClickOutside` listener: mounted only while the
popover is, it calls `onClose` when the mousedown target is outside the
popover's bounds. -/
def dispatchOutsideClick (st : SessionState) (targetInsidePopover : Bool) :
    SessionState :=
  if st.selection.isSome && !targetInsidePopover then handleClosePopover st else st

/-- The handler `handleTextSelect` of `page.tsx`: stores a new selection only
when the emitted text has at least 3 characters. -/
def handleTextSelect (st : SessionState) (text : String) (position : Anchor) :
    SessionState :=
  if text.length ≥ 3 then { st with selection := some ⟨text, position⟩ } else st

/-- The bounding rectangle of the platform selection's range. -/
structure Rect where
  left : Int
  right : Int
  top : Int
  bottom : Int
deriving DecidableEq

/-- JavaScript `String.prototype.trim`, modelled over the character list:
removes whitespace from both ends (Lean's own `String.trim` is equivalent
but does not reduce in the kernel, so it cannot serve in a witness). -/
def jsTrim (s : String) : String :=
  String.mk (((s.data.dropWhile Char.isWhitespace).reverse.dropWhile
    Char.isWhitespace).reverse)

/-- The handler `handleMouseUp` of `PDFViewer.tsx`: reads the platform
selection (`none` when there is none), trims it, and if the trimmed text is
non-empty emits it with the range's rectangle-derived anchor; otherwise
emits nothing. -/
def handleMouseUp (winSel : Option String) (rect : Rect) :
    Option (String × Anchor) :=
  match winSel with
  | none => none
  | some raw =>
    let selectedText := jsTrim raw
    if selectedText != "" && selectedText.length > 0 then
      some (selectedText, ⟨rect.right, rect.top, rect.bottom⟩)
    else
      none

/-- The mouse-up pipeline: the viewer's emission (if any) consumed by the
session shell's `handleTextSelect`. -/
def processMouseUp (st : SessionState) (winSel : Option String) (rect : Rect) :
    SessionState :=
  match handleMouseUp winSel rect with
  | some (text, position) => handleTextSelect st text position
  | none => st

/-- JavaScript `Math.min`. -/
def jsMin (a b : ℚ) : ℚ := if a ≤ b then a else b

/-- JavaScript `Math.max`. -/
def jsMax (a b : ℚ) : ℚ := if a ≤ b then b else a

/-- The viewer's `zoomIn`: `setScale((s) => Math.min(s + 0.2, 3))`. -/
def zoomIn (s : ℚ) : ℚ := jsMin (s + 2/10) 3

/-- The viewer's `zoomOut`: `setScale((s) => Math.max(s - 0.2, 0.5))`. -/
def zoomOut (s : ℚ) : ℚ := jsMax (s - 2/10) (5/10)

/-- The initial scale, `useState<number>(1.2)`. -/
def initialScale : ℚ := 12/10

/-- A discrete zoom action (toolbar button or keyboard shortcut). -/
inductive ZoomAction where
  | zin
  | zout
deriving DecidableEq

/-- Apply one zoom action to the scale. -/
def applyZoom (s : ℚ) : ZoomAction → ℚ
  | .zin => zoomIn s
  | .zout => zoomOut s

/-- The scale after a sequence of zoom actions from the initial scale. -/
def runZoom (acts : List ZoomAction) : ℚ :=
  acts.foldl applyZoom initialScale

/-- What a fetch of `/api/explain` resolves to, as the popover's
`fetchExplanation` sees it: a 200 with an explanation, or an error path
(non-ok response or thrown error) with a message. -/
inductive FetchResult where
  | ok (explanation : String)
  | err (msg : String)
deriving DecidableEq

/-- The popover's internal state: the `text` prop it currently renders for,
and its `explanation`, `loading` and `error` state hooks. -/
structure PanelState where
  currentText : String
  explanation : Option String
  loading : Bool
  error : Option String
deriving DecidableEq

/-- The effect on `[text, model]` re-running for a new selection text:
`setLoading(true); setError(null)` and a new fetch is issued (the fetch's
resolution is a separate, later event). -/
def startFetch (st : PanelState) (text : String) : PanelState :=
  { st with currentText := text, loading := true, error := none }

/-- A fetch's continuation resolving. The closure applies its result to the
component's state unconditionally: nothing in `fetchExplanation` compares
the response's originating selection with the current one. -/
def applyResponse (st : PanelState) : FetchResult → PanelState
  | .ok e => { st with explanation := some e, loading := false }
  | .err m => { st with error := some m, loading := false }

/-- An event of the popover's lifetime: the effect running for a (new)
selection text, or an issued fetch resolving. A `response` event carries
the selection text its request was issued for; `applyResponse` ignores it,
which is exactly the code's behavior. -/
inductive PanelEvent where
  | select (text : String)
  | response (forText : String) (r : FetchResult)

/-- One step of the popover state machine. -/
def panelStep (st : PanelState) : PanelEvent → PanelState
  | .select t => startFetch st t
  | .response _ r => applyResponse st r

/-- Mounting the popover for a selection: fresh state, effect runs at once. -/
def mountPanel (text : String) : PanelState :=
  startFetch ⟨text, none, true, none⟩ text

/-- Run the popover over a list of events from the given state. -/
def panelRun (st : PanelState) (events : List PanelEvent) : PanelState :=
  events.foldl panelStep st

/-- A concrete active session: a document is loaded, the selection
"entropy" is active, and the platform text selection has ranges. -/
def st0 : SessionState :=
  { pdfUrl := some "doc.pdf", urlInput := "",
    selection := some ⟨"entropy", ⟨100, 50, 70⟩⟩,
    model := "fast", platformSelection := true }

/-- The event order that exhibits the stale-response overwrite: with the
popover mounted for selection A (a fetch for A outstanding), selection B
replaces A, B's fetch resolves, and then A's outstanding fetch resolves
last. Both responses were issued by the panel, one per selection. -/
def staleTrace : List PanelEvent :=
  [.select "B", .response "B" (.ok "explanation for B"),
    .response "A" (.ok "explanation for A")]

/-- A fixed upstream behavior for witnesses: every call succeeds with no
content. -/
def u0 : UpstreamCall → UpstreamResult := fun _ => .success none

/-- A 2001-character text, for exercising the length limit. -/
def longText : String := String.mk (List.replicate 2001 'a')

lemma longText_length : longText.length = 2001 := by
  rw [show longText.length = (List.replicate 2001 'a').length from rfl,
    List.length_replicate]

lemma post_400_iff (k : String) (body : ReqBody)
    (upstream : UpstreamCall → UpstreamResult) :
    ((POST (some k) body upstream).1.status = 400 ↔ invalidText body.text) := by
  obtain ⟨t, m⟩ := body
  cases t with
  | vStr s =>
    simp only [POST, invalidText, jsTruthy, jsIsString, jsAsString,
      Bool.not_true, Bool.or_false]
    by_cases hs : s = ""
    · subst hs; simp
    · have hne : (s != "") = true := by simp [hs]
      simp only [hne, Bool.not_true, Bool.false_or, Bool.not_false]
      by_cases hl : s.length > 2000
      · simp [hl]
      · simp only [if_neg hl, hl, or_false, hs, iff_false]
        cases hup : upstream (buildUpstreamCall (m.getD "fast") s) with
        | success c => simp [hup]
        | failure st msg =>
          by_cases h1 : st = some 401
          · simp [hup, h1]
          · by_cases h2 : st = some 429
            · simp [hup, h1, h2]
            · simp [hup, h1, h2]
  | vNum n => simp [POST, invalidText, jsTruthy, jsIsString]
  | vBool b => simp [POST, invalidText, jsTruthy, jsIsString]
  | vNull => simp [POST, invalidText, jsTruthy, jsIsString]
  | vUndefined => simp [POST, invalidText, jsTruthy, jsIsString]
  | vObj => simp [POST, invalidText, jsTruthy, jsIsString]

lemma post_invalid_no_call (body : ReqBody)
    (upstream : UpstreamCall → UpstreamResult) (h : invalidText body.text) :
    ∀ a : Option String, (POST a body upstream).2 = [] := by
  intro a
  cases a with
  | none => rfl
  | some k =>
    obtain ⟨t, m⟩ := body
    cases t with
    | vStr s =>
      rcases h with h | h
      · subst h; simp [POST, jsTruthy]
      · have hs : s ≠ "" := by
          intro e
          subst e
          simp at h
        have hne : (s != "") = true := by simp [hs]
        simp [POST, jsTruthy, jsIsString, jsAsString, hne, h]
    | vNum n => simp [POST, jsTruthy, jsIsString]
    | vBool b => simp [POST, jsTruthy, jsIsString]
    | vNull => simp [POST, jsTruthy, jsIsString]
    | vUndefined => simp [POST, jsTruthy, jsIsString]
    | vObj => simp [POST, jsTruthy, jsIsString]

lemma post_too_long (k s : String) (m : Option String)
    (upstream : UpstreamCall → UpstreamResult) (h : s.length > 2000) :
    (POST (some k) ⟨.vStr s, m⟩ upstream).1 =
      ⟨400, .err "Text too long. Please select a shorter passage."⟩ := by
  have hs : s ≠ "" := by
    intro e
    subst e
    simp at h
  have hne : (s != "") = true := by simp [hs]
  simp [POST, jsTruthy, jsIsString, jsAsString, hne, h]

lemma post_valid_upstream (k s : String) (m : Option String)
    (upstream : UpstreamCall → UpstreamResult)
    (hs : s ≠ "") (hl : s.length ≤ 2000) :
    POST (some k) ⟨.vStr s, m⟩ upstream =
      (match upstream (buildUpstreamCall (m.getD "fast") s) with
        | .success content =>
          (⟨200, .ok (strOrElse content "Unable to generate explanation.")⟩,
            [buildUpstreamCall (m.getD "fast") s])
        | .failure st msg =>
          if st = some 401 then
            (⟨401, .err "Invalid API key"⟩, [buildUpstreamCall (m.getD "fast") s])
          else if st = some 429 then
            (⟨429, .err "Rate limit exceeded. Please try again."⟩,
              [buildUpstreamCall (m.getD "fast") s])
          else
            (⟨500, .err (strOrElse msg "Failed to generate explanation")⟩,
              [buildUpstreamCall (m.getD "fast") s])) := by
  have hne : (s != "") = true := by simp [hs]
  have hl' : ¬ s.length > 2000 := by omega
  simp [POST, jsTruthy, jsIsString, jsAsString, hne, hl']

lemma buildUpstreamCall_unrecognized (msel : String)
    (hm : msel ∉ ["fast", "balanced", "thinking"]) (s : String) :
    buildUpstreamCall msel s = buildUpstreamCall "fast" s := by
  simp only [List.mem_cons, List.not_mem_nil, or_false, not_or] at hm
  obtain ⟨h1, h2, h3⟩ := hm
  have b1 : (msel == "fast") = false := by simp [h1]
  have b2 : (msel == "balanced") = false := by simp [h2]
  have b3 : (msel == "thinking") = false := by simp [h3]
  simp [buildUpstreamCall, MODELS, List.lookup, b1, b2, b3, h3]

lemma zoom_step_bounds (s : ℚ) (h1 : 1/2 ≤ s) (h2 : s ≤ 3) (a : ZoomAction) :
    1/2 ≤ applyZoom s a ∧ applyZoom s a ≤ 3 := by
  cases a <;>
    simp only [applyZoom, zoomIn, zoomOut, jsMin, jsMax] <;>
    split_ifs <;> constructor <;> linarith

lemma foldl_zoom_bounds : ∀ (acts : List ZoomAction) (s : ℚ),
    1/2 ≤ s → s ≤ 3 →
    1/2 ≤ acts.foldl applyZoom s ∧ acts.foldl applyZoom s ≤ 3
  | [], _, h1, h2 => ⟨h1, h2⟩
  | a :: t, s, h1, h2 => by
    rw [List.foldl_cons]
    obtain ⟨g1, g2⟩ := zoom_step_bounds s h1 h2 a
    exact foldl_zoom_bounds t _ g1 g2

lemma zoomIn_fixed : zoomIn 3 = 3 := by norm_num [zoomIn, jsMin]

lemma zoomOut_fixed : zoomOut (1/2) = 1/2 := by norm_num [zoomOut, jsMax]

lemma zoomIn_nine : zoomIn^[9] initialScale = 3 := by
  show zoomIn (zoomIn (zoomIn (zoomIn (zoomIn (zoomIn (zoomIn (zoomIn
    (zoomIn initialScale)))))))) = 3
  norm_num [zoomIn, jsMin, initialScale]

lemma zoomOut_four : zoomOut^[4] initialScale = 1/2 := by
  show zoomOut (zoomOut (zoomOut (zoomOut initialScale))) = 1/2
  norm_num [zoomOut, jsMax, initialScale]

/-- C1. The popover applies a late-arriving response for a superseded
selection to its current state: after selection A is replaced by selection
B and B's fetch has already resolved, A's fetch resolving last leaves the
panel rendering A's explanation while its current selection is B. This
evaluates the code's fetch state machine at the failing event order and
contradicts the claim that B's outcome is rendered and A's stale response
is ignored regardless of arrival order (the spec's ordering guarantee,
which the code implements no guard for). -/
theorem claim_C1_stale_overwrite :
    (panelRun (mountPanel "A") staleTrace).currentText = "B" ∧
    (panelRun (mountPanel "A") staleTrace).explanation =
      some "explanation for A" ∧
    (panelRun (mountPanel "A") staleTrace).loading = false :=
  ⟨rfl, rfl, rfl⟩

/-- C2. The boundary returns 400 if and only if the text field is missing,
non-string, empty, or longer than 2000 characters (with the credential
configured; without it the handler returns 500 before validating); in every
invalid case it makes no upstream call (whatever the credential), and for
length over 2000 it returns exactly the "too long" message, regardless of
the text's content. -/
theorem claim_C2_validation (k : String) (body : ReqBody)
    (upstream : UpstreamCall → UpstreamResult) :
    ((POST (some k) body upstream).1.status = 400 ↔ invalidText body.text) ∧
    (invalidText body.text → ∀ a : Option String, (POST a body upstream).2 = []) ∧
    (∀ s : String, body.text = .vStr s → s.length > 2000 →
      (POST (some k) body upstream).1 =
        ⟨400, .err "Text too long. Please select a shorter passage."⟩) :=
  ⟨post_400_iff k body upstream,
    fun h => post_invalid_no_call body upstream h,
    fun s hs hl => by
      obtain ⟨t, mm⟩ := body
      simp only at hs
      subst hs
      exact post_too_long k s mm upstream hl⟩

theorem claim_C2_validation_witness :
    (POST (some "k") ⟨.vStr "", none⟩ u0).1.status = 400 ∧
    (POST (some "k") ⟨.vStr "", none⟩ u0).2 = [] ∧
    (POST (some "k") ⟨.vStr longText, none⟩ u0).1 =
      ⟨400, .err "Text too long. Please select a shorter passage."⟩ :=
  ⟨(claim_C2_validation "k" ⟨.vStr "", none⟩ u0).1.mpr (Or.inl rfl),
    (claim_C2_validation "k" ⟨.vStr "", none⟩ u0).2.1 (Or.inl rfl) (some "k"),
    (claim_C2_validation "k" ⟨.vStr longText, none⟩ u0).2.2 longText rfl
      (by rw [longText_length]; norm_num)⟩

/-- C3. For every text of length between 3 and 2000, with a configured
credential and a successful upstream call, the boundary returns 200 with a
non-empty explanation string; when the upstream content is empty or absent
the literal fallback "Unable to generate explanation." is substituted. -/
theorem claim_C3_success_nonempty (k s : String) (m : Option String)
    (content : Option String) (upstream : UpstreamCall → UpstreamResult)
    (h3 : 3 ≤ s.length) (h2000 : s.length ≤ 2000)
    (hup : upstream (buildUpstreamCall (m.getD "fast") s) = .success content) :
    (POST (some k) ⟨.vStr s, m⟩ upstream).1.status = 200 ∧
    ∃ e, (POST (some k) ⟨.vStr s, m⟩ upstream).1.body = .ok e ∧ e ≠ "" ∧
      ((content = none ∨ content = some "") →
        e = "Unable to generate explanation.") := by
  have hs : s ≠ "" := by
    intro e
    subst e
    simp at h3
  rw [post_valid_upstream k s m upstream hs h2000, hup]
  refine ⟨rfl, strOrElse content "Unable to generate explanation.", rfl, ?_, ?_⟩
  · cases content with
    | none => simp [strOrElse]
    | some c =>
      by_cases hc : c = "" <;> simp [strOrElse, hc]
  · rintro (h | h) <;> subst h <;> simp [strOrElse]

theorem claim_C3_success_nonempty_witness :
    (POST (some "k") ⟨.vStr "abc", none⟩ u0).1.status = 200 ∧
    ∃ e, (POST (some "k") ⟨.vStr "abc", none⟩ u0).1.body = .ok e ∧ e ≠ "" ∧
      (((none : Option String) = none ∨ (none : Option String) = some "") →
        e = "Unable to generate explanation.") :=
  claim_C3_success_nonempty "k" "abc" none none u0 (by decide) (by decide) rfl

/-- C4. Request construction is a per-tier branch: for the "thinking" tier
the boundary sends exactly one user-role message merging the fixed
instruction and the passage, with no system-role message, no temperature,
and `max_completion_tokens` (not `max_tokens`); for every other model value
it sends a system-role instruction plus a user-role passage message with
`max_tokens` and a temperature setting. The handler makes exactly that
call. -/
theorem claim_C4_per_tier_shape (k s : String) (m : Option String)
    (upstream : UpstreamCall → UpstreamResult)
    (hs : s ≠ "") (h2000 : s.length ≤ 2000) :
    (POST (some k) ⟨.vStr s, m⟩ upstream).2 =
      [buildUpstreamCall (m.getD "fast") s] ∧
    (m = some "thinking" →
      buildUpstreamCall (m.getD "fast") s =
        { model := "o1-mini"
          messages := [⟨"user", systemPrompt ++ "\n\n" ++ userPrompt s⟩]
          max_tokens := none
          max_completion_tokens := some 300
          temperature := none }) ∧
    (m ≠ some "thinking" →
      buildUpstreamCall (m.getD "fast") s =
        { model := (MODELS.lookup (m.getD "fast")).getD "gpt-4o-mini"
          messages := [⟨"system", systemPrompt⟩, ⟨"user", userPrompt s⟩]
          max_tokens := some 200
          max_completion_tokens := none
          temperature := some (3/10) }) := by
  refine ⟨?_, ?_, ?_⟩
  · rw [post_valid_upstream k s m upstream hs h2000]
    cases upstream (buildUpstreamCall (m.getD "fast") s) with
    | success c => rfl
    | failure st msg =>
      by_cases h1 : st = some 401
      · simp [h1]
      · by_cases h2 : st = some 429 <;> simp [h1, h2]
  · intro hm
    subst hm
    rfl
  · intro hm
    have hne : m.getD "fast" ≠ "thinking" := by
      cases m with
      | none => simp
      | some x =>
        simp only [Option.getD_some]
        intro e
        exact hm (by rw [e])
    simp [buildUpstreamCall, hne]

theorem claim_C4_per_tier_shape_witness :
    (POST (some "k") ⟨.vStr "abc", some "thinking"⟩ u0).2 =
      [buildUpstreamCall ((some "thinking" : Option String).getD "fast") "abc"] ∧
    buildUpstreamCall ((some "thinking" : Option String).getD "fast") "abc" =
      { model := "o1-mini"
        messages := [⟨"user", systemPrompt ++ "\n\n" ++ userPrompt "abc"⟩]
        max_tokens := none
        max_completion_tokens := some 300
        temperature := none } ∧
    buildUpstreamCall ((none : Option String).getD "fast") "abc" =
      { model := (MODELS.lookup ((none : Option String).getD "fast")).getD
          "gpt-4o-mini"
        messages := [⟨"system", systemPrompt⟩, ⟨"user", userPrompt "abc"⟩]
        max_tokens := some 200
        max_completion_tokens := none
        temperature := some (3/10) } :=
  ⟨(claim_C4_per_tier_shape "k" "abc" (some "thinking") u0
      (by decide) (by decide)).1,
    (claim_C4_per_tier_shape "k" "abc" (some "thinking") u0
      (by decide) (by decide)).2.1 rfl,
    (claim_C4_per_tier_shape "k" "abc" none u0
      (by decide) (by decide)).2.2 (by decide)⟩

/-- C5. A request whose model field is absent or unrecognized behaves
identically to one naming the default "fast" tier: the handler's entire
output (response and upstream-call trace) is equal, for every credential,
text value and upstream behavior — so the same upstream model, the same
request shape, no crash and no 400 caused by the model value. -/
theorem claim_C5_unrecognized_model (a : Option String) (t : JsValue)
    (msel : String) (upstream : UpstreamCall → UpstreamResult)
    (hm : msel ∉ ["fast", "balanced", "thinking"]) :
    POST a ⟨t, some msel⟩ upstream = POST a ⟨t, some "fast"⟩ upstream ∧
    POST a ⟨t, none⟩ upstream = POST a ⟨t, some "fast"⟩ upstream := by
  constructor
  · cases a with
    | none => rfl
    | some k =>
      simp only [POST, Option.getD_some]
      rw [buildUpstreamCall_unrecognized msel hm]
  · cases a with
    | none => rfl
    | some k =>
      simp only [POST, Option.getD_some, Option.getD_none]

theorem claim_C5_unrecognized_model_witness :
    (POST (some "k") ⟨.vStr "abc", some "gpt-5"⟩ u0 =
      POST (some "k") ⟨.vStr "abc", some "fast"⟩ u0) ∧
    (POST (some "k") ⟨.vStr "abc", none⟩ u0 =
      POST (some "k") ⟨.vStr "abc", some "fast"⟩ u0) :=
  claim_C5_unrecognized_model (some "k") (.vStr "abc") "gpt-5" u0 (by decide)

/-- C6. When the upstream API credential is absent from the environment at
request time, the handler returns 500 with an error message and makes no
upstream call, for every request body and upstream behavior (no crash: the
handler is total). -/
theorem claim_C6_missing_key (body : ReqBody)
    (upstream : UpstreamCall → UpstreamResult) :
    POST none body upstream = (⟨500, .err "API key not configured"⟩, []) := rfl

/-- C7 counterexample. The claim that all three dismissal events clear the
platform text selection is false for document unload: from an active
session whose platform selection has ranges, `handleBack` transitions to
Idle (selection cleared, so the panel unmounts and its Explanation Result
is discarded) but leaves the platform text selection's ranges in place —
only `handleClosePopover` (Escape, outside click) calls
`removeAllRanges`. -/
theorem claim_C7_unload_keeps_ranges :
    st0.selection.isSome = true ∧
    (handleBack st0).1.selection = none ∧
    (handleBack st0).1.platformSelection = true :=
  ⟨rfl, rfl, rfl⟩

/-- C7 as amended. Each of Escape, outside click and document unload
independently transitions Active to Idle (the selection becomes `none`,
unmounting the panel and discarding its Explanation Result); Escape and
outside click additionally clear the platform text selection, while
document unload leaves the platform text selection unchanged. -/
theorem claim_C7_dismissals (st : SessionState)
    (h : st.selection.isSome = true) :
    ((dispatchEscape st).selection = none ∧
      (dispatchEscape st).platformSelection = false) ∧
    ((dispatchOutsideClick st false).selection = none ∧
      (dispatchOutsideClick st false).platformSelection = false) ∧
    ((handleBack st).1.selection = none ∧
      (handleBack st).1.platformSelection = st.platformSelection) := by
  refine ⟨⟨?_, ?_⟩, ⟨?_, ?_⟩, ⟨?_, ?_⟩⟩ <;>
    simp [dispatchEscape, dispatchOutsideClick, handleBack, handleClosePopover, h]

theorem claim_C7_dismissals_witness :
    ((dispatchEscape st0).selection = none ∧
      (dispatchEscape st0).platformSelection = false) ∧
    ((dispatchOutsideClick st0 false).selection = none ∧
      (dispatchOutsideClick st0 false).platformSelection = false) ∧
    ((handleBack st0).1.selection = none ∧
      (handleBack st0).1.platformSelection = st0.platformSelection) :=
  claim_C7_dismissals st0 rfl

/-- C8. From the initial scale, every sequence of zoom actions keeps the
scale within [0.5, 3]; each single action either moves the scale by exactly
0.2 or clamps it to the corresponding bound; zoom-in is idempotent at
exactly 3 and zoom-out at exactly 0.5; nine or more zoom-ins from the
initial scale yield exactly 3, and four or more zoom-outs exactly 0.5. -/
theorem claim_C8_zoom_bounds :
    (∀ acts : List ZoomAction, 1/2 ≤ runZoom acts ∧ runZoom acts ≤ 3) ∧
    (∀ s : ℚ, (zoomIn s = s + 2/10 ∨ zoomIn s = 3) ∧
      (zoomOut s = s - 2/10 ∨ zoomOut s = 5/10)) ∧
    zoomIn 3 = 3 ∧ zoomOut (1/2) = 1/2 ∧
    (∀ n : ℕ, 9 ≤ n → zoomIn^[n] initialScale = 3) ∧
    (∀ n : ℕ, 4 ≤ n → zoomOut^[n] initialScale = 1/2) := by
  refine ⟨?_, ?_, zoomIn_fixed, zoomOut_fixed, ?_, ?_⟩
  · intro acts
    exact foldl_zoom_bounds acts initialScale (by norm_num [initialScale])
      (by norm_num [initialScale])
  · intro s
    constructor
    · simp only [zoomIn, jsMin]
      split_ifs <;> [left; right] <;> rfl
    · simp only [zoomOut, jsMax]
      split_ifs <;> [right; left] <;> rfl
  · intro n hn
    obtain ⟨m, rfl⟩ := Nat.exists_eq_add_of_le hn
    rw [add_comm, Function.iterate_add_apply, zoomIn_nine,
      Function.iterate_fixed zoomIn_fixed]
  · intro n hn
    obtain ⟨m, rfl⟩ := Nat.exists_eq_add_of_le hn
    rw [add_comm, Function.iterate_add_apply, zoomOut_four,
      Function.iterate_fixed zoomOut_fixed]

theorem claim_C8_zoom_bounds_witness :
    (1/2 ≤ runZoom [.zin, .zout] ∧ runZoom [.zin, .zout] ≤ 3) ∧
    zoomIn^[9] initialScale = 3 ∧ zoomOut^[4] initialScale = 1/2 :=
  ⟨claim_C8_zoom_bounds.1 [.zin, .zout],
    claim_C8_zoom_bounds.2.2.2.2.1 9 (by decide),
    claim_C8_zoom_bounds.2.2.2.2.2 4 (by decide)⟩

/-- C9. Uploading a file whose MIME type is not application/pdf leaves the
entire session state unchanged (document reference, selection, URL input,
platform selection — and hence any previously created blob URL keeps its
prior value, as no revoke effect is emitted) and raises the alert "Please
upload a PDF file"; no object URL is created. -/
theorem claim_C9_non_pdf_rejected (st : SessionState)
    (fileType freshUrl : String) (h : fileType ≠ "application/pdf") :
    handleFileUpload st fileType freshUrl =
      (st, [.alert "Please upload a PDF file"]) ∧
    Effect.createObjectURL ∉ (handleFileUpload st fileType freshUrl).2 := by
  constructor
  · simp [handleFileUpload, h]
  · simp [handleFileUpload, h]

theorem claim_C9_non_pdf_rejected_witness :
    handleFileUpload st0 "text/plain" "blob:new" =
      (st0, [.alert "Please upload a PDF file"]) ∧
    Effect.createObjectURL ∉ (handleFileUpload st0 "text/plain" "blob:new").2 :=
  claim_C9_non_pdf_rejected st0 "text/plain" "blob:new" (by decide)

/-- C10. The 3-character minimum is client-side only: a mouse-up whose
trimmed text is shorter than 3 characters never creates a selection (the
session state is unchanged), while the server-side validation accepts
texts of length 1 and 2 and proceeds to the upstream call, returning 200
on upstream success. -/
theorem claim_C10_min_length_client_only :
    (∀ (st : SessionState) (raw : String) (rect : Rect),
      (jsTrim raw).length < 3 → processMouseUp st (some raw) rect = st) ∧
    (∀ (st : SessionState) (rect : Rect), processMouseUp st none rect = st) ∧
    (∀ (k s : String) (m : Option String)
      (upstream : UpstreamCall → UpstreamResult) (content : Option String),
      1 ≤ s.length → s.length ≤ 2 →
      upstream (buildUpstreamCall (m.getD "fast") s) = .success content →
      (POST (some k) ⟨.vStr s, m⟩ upstream).1.status = 200 ∧
      (POST (some k) ⟨.vStr s, m⟩ upstream).2 =
        [buildUpstreamCall (m.getD "fast") s]) := by
  refine ⟨?_, ?_, ?_⟩
  · intro st raw rect hlen
    simp only [processMouseUp, handleMouseUp]
    by_cases ht : jsTrim raw = ""
    · simp [ht]
    · have hne : (jsTrim raw != "") = true := by simp [ht]
      have h3 : ¬ (3 ≤ (jsTrim raw).length) := by omega
      by_cases hpos : 0 < (jsTrim raw).length
      · simp [hne, hpos, handleTextSelect, h3]
      · simp [hne, hpos]
  · intro st rect
    rfl
  · intro k s m upstream content h1 h2 hup
    have hs : s ≠ "" := by
      intro e
      subst e
      simp at h1
    have hl : s.length ≤ 2000 := by omega
    rw [post_valid_upstream k s m upstream hs hl, hup]
    exact ⟨rfl, rfl⟩

theorem claim_C10_min_length_client_only_witness :
    processMouseUp st0 (some "  ab  ") ⟨0, 10, 20, 30⟩ = st0 ∧
    (POST (some "k") ⟨.vStr "ab", none⟩ u0).1.status = 200 ∧
    (POST (some "k") ⟨.vStr "ab", none⟩ u0).2 =
      [buildUpstreamCall ((none : Option String).getD "fast") "ab"] :=
  ⟨claim_C10_min_length_client_only.1 st0 "  ab  " ⟨0, 10, 20, 30⟩ (by decide),
    (claim_C10_min_length_client_only.2.2 "k" "ab" none u0 none
      (by decide) (by decide) rfl).1,
    (claim_C10_min_length_client_only.2.2 "k" "ab" none u0 none
      (by decide) (by decide) rfl).2⟩

end PdfReader
